import Mathlib

/-!
Shallow embedding of the proxy orchestrator of `src/proxy/mod.rs`
(pingsix): the per-request `ProxyContext`, and the lifecycle hooks
`new_ctx`, `request_filter`, `fail_to_connect`, `upstream_peer` and
`upstream_request_filter` of `ProxyService`, together with the clock
helper `now()`.

Machine integers (`u64`, `usize`) are modelled as `Nat` with explicit
reduction modulo `2 ^ 64` exactly where the Rust code casts or where
release-mode wrapping arithmetic applies.  External collaborator types
(`Session`, `HttpPeer`, `RequestHeader`, pingora's `Error`) are
modelled as plain structures carrying the fields the orchestrator
reads or writes.
-/

/-- `2 ^ 64`, the modulus of Rust's `u64` arithmetic. -/
def U64 : Nat := 2 ^ 64

/-- Wrapping `u64` subtraction `a - b` (release-mode Rust semantics);
both arguments are reduced into `u64` range first, so the function is
total on `Nat`. -/
def u64Sub (a b : Nat) : Nat := (a % U64 + U64 - b % U64) % U64

/-- The system clock as seen through `SystemTime::now()`: either the
clock reads before the Unix epoch, or it reads `millis` milliseconds
after it. -/
structure Clock where
  beforeEpoch : Bool
  millis : Nat
deriving DecidableEq

/-- `now()` of `src/proxy/mod.rs`:
`SystemTime::now().duration_since(UNIX_EPOCH).unwrap_or_default()`,
observed through `Duration::as_millis`.  A clock before the epoch makes
`duration_since` fail, and `unwrap_or_default` turns that into the zero
duration. -/
def nowMillis (c : Clock) : Nat := if c.beforeEpoch then 0 else c.millis

/-- `now().as_millis() as u64`: the `u128` millisecond count truncated
to `u64`. -/
def nowMillisU64 (c : Clock) : Nat := nowMillis c % U64

/-- The `ErrorType` of pingora errors, restricted to the variants this
code touches: `HTTPStatus(code)` built in `request_filter`, plus opaque
tags for errors produced elsewhere (e.g. connect failures handed to
`fail_to_connect`). -/
inductive ErrorType where
  | HTTPStatus (code : Nat)
  | ConnectFailure
  | Internal
deriving DecidableEq

/-- A pingora `Box<Error>` as the orchestrator observes it: its type,
the explanation string attached by `Error::explain`, and the retry
flag written by `set_retry`. -/
structure PgError where
  etype : ErrorType
  context : String
  retry : Bool
deriving DecidableEq

/-- `Error::explain(etype, msg)`: a fresh error, not marked retryable. -/
def PgError.explain (t : ErrorType) (msg : String) : PgError :=
  { etype := t, context := msg, retry := false }

/-- `Error::set_retry`. -/
def PgError.set_retry (e : PgError) (b : Bool) : PgError := { e with retry := b }

/-- Request metadata presented by the engine's `Session`; the
orchestrator only hands it to the matcher and the peer selector. -/
structure Session where
  host : String
  path : String
deriving DecidableEq

/-- The outbound `RequestHeader`; the orchestrator only rewrites its
host. -/
structure RequestHeader where
  host : String
deriving DecidableEq

/-- An upstream `HttpPeer`, reduced to its address. -/
structure HttpPeer where
  address : String
deriving DecidableEq

/-- Modelled from the spec: the per-rule load balancer lives in
`proxy::lb`, which is not under `src/`; per the spec (§3) it carries
`max_retries : Option<uint>` (read by `get_retries`),
`retry_timeout_seconds : Option<uint>` (read by `get_retry_timeout`)
and a host-rewrite rule (applied by `upstream_host_rewrite`). -/
structure LoadBalancer where
  retries : Option Nat
  retry_timeout : Option Nat
  hostRewrite : RequestHeader → RequestHeader

/-- `lb.get_retries()`. -/
def LoadBalancer.get_retries (lb : LoadBalancer) : Option Nat := lb.retries

/-- `lb.get_retry_timeout()`. -/
def LoadBalancer.get_retry_timeout (lb : LoadBalancer) : Option Nat :=
  lb.retry_timeout

/-- `lb.upstream_host_rewrite(req)`, as the in-place rewrite of the
outbound header. -/
def LoadBalancer.upstream_host_rewrite (lb : LoadBalancer) (r : RequestHeader) :
    RequestHeader := lb.hostRewrite r

/-- Modelled from the spec: `ProxyRouter` lives in `proxy::router`,
not under `src/`; per the spec (§3) a routing rule binds a match entry
to exactly one load balancer and exposes peer selection
(`select_http_peer`). -/
structure ProxyRouter where
  lb : LoadBalancer
  selectPeer : Session → Except PgError HttpPeer

/-- `router.select_http_peer(session)`. -/
def ProxyRouter.select_http_peer (r : ProxyRouter) (s : Session) :
    Except PgError HttpPeer := r.selectPeer s

/-- `ProxyContext` of `src/proxy/mod.rs`: the matched rule, the
extracted path parameters, the retry attempt counter `tries`, and the
creation timestamp `created_at` in `u64` milliseconds. -/
structure ProxyContext where
  router : Option ProxyRouter
  router_params : List (String × String)
  tries : Nat
  created_at : Nat

/-- `ProxyContext::default()`: no matched rule, empty parameters, zero
tries, `created_at = now().as_millis() as u64`. -/
def ProxyContext.defaultCtx (c : Clock) : ProxyContext :=
  { router := none, router_params := [], tries := 0,
    created_at := nowMillisU64 c }

/-- `ProxyService`: the matcher is `MatchEntry::match_request`, from
`proxy::router` (not under `src/`); per the spec (§4.1) it is a pure
function of the request returning the matched rule and captured
parameters, or nothing. -/
structure ProxyService where
  matcher : Session → Option (List (String × String) × ProxyRouter)

/-- `ProxyService::new_ctx`. -/
def ProxyService.new_ctx (_svc : ProxyService) (c : Clock) : ProxyContext :=
  ProxyContext.defaultCtx c

/-- `ProxyService::request_filter`: on a match, store parameters and
rule into the context and return `Ok(false)`; otherwise return the
`HTTPStatus(404)` "Not Found" error, leaving the context untouched. -/
def ProxyService.request_filter (svc : ProxyService) (s : Session)
    (ctx : ProxyContext) : Except PgError Bool × ProxyContext :=
  match svc.matcher s with
  | some (params, router) =>
      (Except.ok false,
       { ctx with router_params := params, router := some router })
  | none =>
      (Except.error (PgError.explain (ErrorType.HTTPStatus 404) "Not Found"),
       ctx)

/-- The time-budget test inside `fail_to_connect`:
`now().as_millis() as u64 - ctx.created_at > timeout * 1000`, all in
wrapping `u64` arithmetic; `false` when no timeout is configured. -/
def timeBudgetExceeded (clk : Clock) (ctx : ProxyContext)
    (router : ProxyRouter) : Bool :=
  match router.lb.get_retry_timeout with
  | some timeout =>
      decide (u64Sub (nowMillisU64 clk) ctx.created_at > (timeout * 1000) % U64)
  | none => false

/-- `ProxyService::fail_to_connect`: the retry decision, returning the
(possibly retry-marked) error together with the updated context. -/
def fail_to_connect (clk : Clock) (ctx : ProxyContext) (e : PgError) :
    PgError × ProxyContext :=
  match ctx.router with
  | some router =>
    match router.lb.get_retries with
    | some retries =>
      if retries = 0 ∨ retries ≤ ctx.tries then (e, ctx)
      else if timeBudgetExceeded clk ctx router then (e, ctx)
      else (e.set_retry true, { ctx with tries := ctx.tries + 1 })
    | none => (e, ctx)
  | none => (e, ctx)

/-- Outcome of a hook whose Rust body may `unwrap()` a `None`:
either a value, a returned error, or a panic. -/
inductive Outcome (α : Type) where
  | ok (a : α)
  | err (e : PgError)
  | panicked
deriving DecidableEq

/-- `ProxyService::upstream_peer`:
`ctx.router.as_ref().unwrap().select_http_peer(session)`; the
`unwrap()` panics when no rule was matched. -/
def upstream_peer (ctx : ProxyContext) (s : Session) : Outcome HttpPeer :=
  match ctx.router with
  | none => Outcome.panicked
  | some r =>
    match r.select_http_peer s with
    | Except.ok p => Outcome.ok p
    | Except.error e => Outcome.err e

/-- `ProxyService::upstream_request_filter`:
`ctx.router.as_ref().unwrap().lb.upstream_host_rewrite(req); Ok(())`;
the `unwrap()` panics when no rule was matched. -/
def upstream_request_filter (ctx : ProxyContext) (req : RequestHeader) :
    Outcome Unit × RequestHeader :=
  match ctx.router with
  | none => (Outcome.panicked, req)
  | some r => (Outcome.ok (), r.lb.upstream_host_rewrite req)

/-- One invocation of a lifecycle hook, as far as the context is
concerned. -/
inductive HookCall where
  | filter (svc : ProxyService) (s : Session)
  | connectFail (clk : Clock) (e : PgError)
  | peerSelect (s : Session)
  | outboundRewrite (req : RequestHeader)

/-- The effect of one hook invocation on the request context
(`upstream_peer` and `upstream_request_filter` never write to it). -/
def applyHook : HookCall → ProxyContext → ProxyContext
  | HookCall.filter svc s, ctx => (ProxyService.request_filter svc s ctx).2
  | HookCall.connectFail clk e, ctx => (fail_to_connect clk ctx e).2
  | HookCall.peerSelect _, ctx => ctx
  | HookCall.outboundRewrite _, ctx => ctx

/-- The context after a sequence of hook invocations. -/
def runHooks (hs : List HookCall) (ctx : ProxyContext) : ProxyContext :=
  hs.foldl (fun c h => applyHook h c) ctx

/-! ### Helper lemmas -/

/-- `fail_to_connect` either returns the error and the context
untouched, or marks the error retryable and bumps `tries` by one. -/
theorem fail_to_connect_cases (clk : Clock) (ctx : ProxyContext)
    (e : PgError) :
    fail_to_connect clk ctx e = (e, ctx) ∨
    fail_to_connect clk ctx e =
      (e.set_retry true, { ctx with tries := ctx.tries + 1 }) := by
  unfold fail_to_connect
  cases hr : ctx.router with
  | none => exact Or.inl rfl
  | some router =>
    cases hn : router.lb.get_retries with
    | none => simp [hn]
    | some retries =>
      by_cases h1 : retries = 0 ∨ retries ≤ ctx.tries
      · simp [hn, h1]
      · cases h2 : timeBudgetExceeded clk ctx router
        · simp [hn, h1, h2]
        · simp [hn, h1, h2]

/-- `request_filter` never touches `tries` or `created_at`. -/
theorem request_filter_preserves (svc : ProxyService) (s : Session)
    (ctx : ProxyContext) :
    (ProxyService.request_filter svc s ctx).2.tries = ctx.tries ∧
    (ProxyService.request_filter svc s ctx).2.created_at = ctx.created_at := by
  unfold ProxyService.request_filter
  cases h : svc.matcher s with
  | none => exact ⟨rfl, rfl⟩
  | some v =>
    obtain ⟨params, router⟩ := v
    exact ⟨rfl, rfl⟩

/-- `fail_to_connect` with a configured retry policy: either the retry
branch is taken — attempts not exhausted, time budget not exceeded,
error marked retryable and `tries` bumped — or the error and context
come back untouched. -/
theorem fail_to_connect_retry_branch (clk : Clock) (ctx : ProxyContext)
    (e : PgError) (router : ProxyRouter) (retries : Nat)
    (hr : ctx.router = some router)
    (hn : router.lb.get_retries = some retries) :
    (¬(retries = 0 ∨ retries ≤ ctx.tries) ∧
      timeBudgetExceeded clk ctx router = false ∧
      fail_to_connect clk ctx e =
        (e.set_retry true, { ctx with tries := ctx.tries + 1 })) ∨
    fail_to_connect clk ctx e = (e, ctx) := by
  unfold fail_to_connect
  by_cases h1 : retries = 0 ∨ retries ≤ ctx.tries
  · right; simp [hr, hn, h1]
  · cases h2 : timeBudgetExceeded clk ctx router
    · left
      refine ⟨h1, rfl, ?_⟩
      simp [hr, hn, h1, h2]
    · right; simp [hr, hn, h1, h2]

/-! ### Concrete fixtures used by witnesses and counterexamples -/

/-- A clock reading 1000 ms after the epoch. -/
def clk0 : Clock := { beforeEpoch := false, millis := 1000 }

/-- A connect failure handed to `fail_to_connect` by the engine. -/
def e0 : PgError := PgError.explain ErrorType.ConnectFailure "connect refused"

/-- A load balancer with no retry policy (`max_retries == None`). -/
def lbNoPolicy : LoadBalancer :=
  { retries := none, retry_timeout := none, hostRewrite := fun r => r }

/-- A rule whose balancer has no retry policy. -/
def routerNoPolicy : ProxyRouter :=
  { lb := lbNoPolicy,
    selectPeer := fun _ => Except.ok { address := "10.0.0.1:80" } }

/-- A matched context over `routerNoPolicy`, first attempt. -/
def ctxNoPolicy : ProxyContext :=
  { router := some routerNoPolicy, router_params := [], tries := 0,
    created_at := 0 }

/-! ### Claim theorems -/

/-- C1: when the matched rule's load balancer has no configured retry
policy (`get_retries = none`), `fail_to_connect` returns the original
error unchanged (in particular not marked retryable) and leaves the
context — including the attempt counter — exactly as it was, so a
connect failure on the first attempt leaves the counter at 0. -/
theorem fail_to_connect_no_policy (clk : Clock) (ctx : ProxyContext)
    (e : PgError) (router : ProxyRouter)
    (hr : ctx.router = some router)
    (hn : router.lb.get_retries = none) :
    fail_to_connect clk ctx e = (e, ctx) := by
  unfold fail_to_connect
  simp [hr, hn]

/-- Witness for C1: a concrete first-attempt connect failure under a
rule with `max_retries == None` comes back undecorated and with the
context untouched. -/
theorem fail_to_connect_no_policy_w :
    fail_to_connect clk0 ctxNoPolicy e0 = (e0, ctxNoPolicy) :=
  fail_to_connect_no_policy clk0 ctxNoPolicy e0 routerNoPolicy rfl rfl

/-- A balancer allowing 2 retries with a 100 s time budget. -/
def lbTwo : LoadBalancer :=
  { retries := some 2, retry_timeout := some 100, hostRewrite := fun r => r }

/-- A rule over `lbTwo`. -/
def routerTwo : ProxyRouter :=
  { lb := lbTwo,
    selectPeer := fun _ => Except.ok { address := "10.0.0.2:80" } }

/-- A context over `routerTwo` that has already spent both retries. -/
def ctxTwoSpent : ProxyContext :=
  { router := some routerTwo, router_params := [], tries := 2,
    created_at := 0 }

/-- C2: with a retry policy configured, if `max_retries = 0` or the
attempt counter has reached `max_retries`, `fail_to_connect` returns
the error and context untouched — for every clock, so the time budget
is never consulted and attempt exhaustion is the outcome even when
both limits are exceeded.  In particular with `max_retries = some 2`
the counter never exceeds 2 (at most 2 retries, 3 attempts total) and
a failure with the counter at 2 is terminal. -/
theorem fail_to_connect_exhausted_attempts :
    (∀ (clk : Clock) (ctx : ProxyContext) (e : PgError)
        (router : ProxyRouter) (retries : Nat),
        ctx.router = some router →
        router.lb.get_retries = some retries →
        retries = 0 ∨ retries ≤ ctx.tries →
        fail_to_connect clk ctx e = (e, ctx)) ∧
    (∀ (clk : Clock) (ctx : ProxyContext) (e : PgError)
        (router : ProxyRouter),
        ctx.router = some router →
        router.lb.get_retries = some 2 →
        (ctx.tries ≤ 2 → (fail_to_connect clk ctx e).2.tries ≤ 2) ∧
        (2 ≤ ctx.tries → fail_to_connect clk ctx e = (e, ctx))) := by
  constructor
  · intro clk ctx e router retries hr hn h1
    unfold fail_to_connect
    simp [hr, hn, h1]
  · intro clk ctx e router hr hn
    constructor
    · intro hle
      rcases fail_to_connect_retry_branch clk ctx e router 2 hr hn with
        ⟨h1, _, heq⟩ | heq
      · rw [heq]
        have hlt : ctx.tries < 2 := by omega
        simp only []
        omega
      · rw [heq]
        exact hle
    · intro h2le
      unfold fail_to_connect
      simp only [hr, hn]
      rw [if_pos (Or.inr h2le)]

/-- Witness for C2: under `max_retries = some 2` with both retries
already spent (counter at 2), a further connect failure is terminal —
here the clock would also put the request 100 s over any budget start,
yet the decision is the attempt-exhaustion one. -/
theorem fail_to_connect_exhausted_attempts_w :
    fail_to_connect clk0 ctxTwoSpent e0 = (e0, ctxTwoSpent) :=
  ((fail_to_connect_exhausted_attempts.2 clk0 ctxTwoSpent e0 routerTwo
    rfl rfl).2) (by decide)

/-- A balancer allowing 3 retries within a 5 s time budget. -/
def lbTimed : LoadBalancer :=
  { retries := some 3, retry_timeout := some 5, hostRewrite := fun r => r }

/-- A rule over `lbTimed`. -/
def routerTimed : ProxyRouter :=
  { lb := lbTimed,
    selectPeer := fun _ => Except.ok { address := "10.0.0.3:80" } }

/-- A context over `routerTimed`, created at epoch millisecond 0,
first attempt. -/
def ctxTimed : ProxyContext :=
  { router := some routerTimed, router_params := [], tries := 0,
    created_at := 0 }

/-- A clock reading 10000 ms: 10 s after `ctxTimed` was created. -/
def clkLate : Clock := { beforeEpoch := false, millis := 10000 }

/-- C3: with a retry policy configured and attempt budget remaining,
if a time budget is configured and the wall-clock milliseconds elapsed
since the context's `created_at` (not since the last attempt) exceed
`timeout * 1000`, `fail_to_connect` returns the error and context
untouched. -/
theorem fail_to_connect_exhausted_time (clk : Clock) (ctx : ProxyContext)
    (e : PgError) (router : ProxyRouter) (retries timeout : Nat)
    (hr : ctx.router = some router)
    (hn : router.lb.get_retries = some retries)
    (h1 : ¬(retries = 0 ∨ retries ≤ ctx.tries))
    (ht : router.lb.get_retry_timeout = some timeout)
    (helapsed : u64Sub (nowMillisU64 clk) ctx.created_at >
      (timeout * 1000) % U64) :
    fail_to_connect clk ctx e = (e, ctx) := by
  have h2 : timeBudgetExceeded clk ctx router = true := by
    unfold timeBudgetExceeded
    simp [ht, helapsed]
  unfold fail_to_connect
  simp [hr, hn, h1, h2]

/-- Witness for C3: 10 s elapsed against a 5 s budget with all 3
retries unspent still yields "do not retry". -/
theorem fail_to_connect_exhausted_time_w :
    fail_to_connect clkLate ctxTimed e0 = (e0, ctxTimed) :=
  fail_to_connect_exhausted_time clkLate ctxTimed e0 routerTimed 3 5
    rfl rfl (by decide) rfl (by decide)

/-- A balancer allowing 2 retries with no time budget. -/
def lbNoTimeout : LoadBalancer :=
  { retries := some 2, retry_timeout := none, hostRewrite := fun r => r }

/-- A rule over `lbNoTimeout`. -/
def routerNoTimeout : ProxyRouter :=
  { lb := lbNoTimeout,
    selectPeer := fun _ => Except.ok { address := "10.0.0.4:80" } }

/-- A context over `routerNoTimeout`, first attempt. -/
def ctxNoTimeout : ProxyContext :=
  { router := some routerNoTimeout, router_params := [], tries := 0,
    created_at := 0 }

/-- C4: with a retry policy configured, the attempt counter strictly
below `max_retries` (and `max_retries ≠ 0`), and no configured time
budget exceeded, `fail_to_connect` bumps the attempt counter by
exactly 1 and returns the error marked retryable via
`set_retry(true)`. -/
theorem fail_to_connect_retry_granted (clk : Clock) (ctx : ProxyContext)
    (e : PgError) (router : ProxyRouter) (retries : Nat)
    (hr : ctx.router = some router)
    (hn : router.lb.get_retries = some retries)
    (h1 : ¬(retries = 0 ∨ retries ≤ ctx.tries))
    (h2 : timeBudgetExceeded clk ctx router = false) :
    fail_to_connect clk ctx e =
      (e.set_retry true, { ctx with tries := ctx.tries + 1 }) := by
  unfold fail_to_connect
  simp [hr, hn, h1, h2]

/-- Witness for C4: a first-attempt connect failure under
`max_retries = some 2` with no time budget is marked retryable and the
counter moves from 0 to 1. -/
theorem fail_to_connect_retry_granted_w :
    fail_to_connect clk0 ctxNoTimeout e0 =
      (PgError.set_retry e0 true,
       { ctxNoTimeout with tries := ctxNoTimeout.tries + 1 }) :=
  fail_to_connect_retry_granted clk0 ctxNoTimeout e0 routerNoTimeout 2
    rfl rfl (by decide) rfl

/-- A fresh context: no matched rule. -/
def ctxFresh : ProxyContext :=
  { router := none, router_params := [], tries := 0, created_at := 0 }

/-- C8: on a context with no matched rule, `fail_to_connect` returns
the error unchanged — not marked retryable — and leaves the context
unmodified, degrading defensively instead of panicking. -/
theorem fail_to_connect_no_router (clk : Clock) (ctx : ProxyContext)
    (e : PgError) (hr : ctx.router = none) :
    fail_to_connect clk ctx e = (e, ctx) := by
  unfold fail_to_connect
  simp [hr]

/-- Witness for C8: a connect failure against a fresh, unmatched
context comes back untouched. -/
theorem fail_to_connect_no_router_w :
    fail_to_connect clk0 ctxFresh e0 = (e0, ctxFresh) :=
  fail_to_connect_no_router clk0 ctxFresh e0 rfl

/-- C9: in every branch, `fail_to_connect` preserves the context's
`router`, `router_params` and `created_at`; the attempt counter either
stays put or — exactly in the branch where the returned error is
marked retryable — grows by exactly 1. -/
theorem fail_to_connect_frame (clk : Clock) (ctx : ProxyContext)
    (e : PgError) :
    (fail_to_connect clk ctx e).2.router = ctx.router ∧
    (fail_to_connect clk ctx e).2.router_params = ctx.router_params ∧
    (fail_to_connect clk ctx e).2.created_at = ctx.created_at ∧
    ((fail_to_connect clk ctx e).2.tries = ctx.tries ∨
      ((fail_to_connect clk ctx e).2.tries = ctx.tries + 1 ∧
        (fail_to_connect clk ctx e).1.retry = true)) := by
  rcases fail_to_connect_cases clk ctx e with h | h <;> rw [h]
  · exact ⟨rfl, rfl, rfl, Or.inl rfl⟩
  · exact ⟨rfl, rfl, rfl, Or.inr ⟨rfl, rfl⟩⟩

/-- A service whose matcher accepts exactly the path `/api`,
capturing one parameter, and routes it to `routerTwo`. -/
def svcX : ProxyService :=
  { matcher := fun s =>
      if s.path = "/api" then some ([("id", "1")], routerTwo) else none }

/-- A request that `svcX` matches. -/
def sessHit : Session := { host := "example.com", path := "/api" }

/-- A request that `svcX` does not match. -/
def sessMiss : Session := { host := "example.com", path := "/nope" }

/-- C5: a request matching no rule makes `request_filter` fail with
the `HTTPStatus 404` "Not Found" error and leaves the context — hence
its missing matched rule — untouched, so the error return
short-circuits the request before any peer selection; a matching
request has its rule and parameters stored into the context and
`request_filter` returns `Ok(false)` ("continue processing"). -/
theorem request_filter_spec :
    (∀ (svc : ProxyService) (s : Session) (ctx : ProxyContext),
        svc.matcher s = none →
        ProxyService.request_filter svc s ctx =
          (Except.error
            (PgError.explain (ErrorType.HTTPStatus 404) "Not Found"),
           ctx)) ∧
    (∀ (svc : ProxyService) (s : Session) (ctx : ProxyContext)
        (params : List (String × String)) (router : ProxyRouter),
        svc.matcher s = some (params, router) →
        ProxyService.request_filter svc s ctx =
          (Except.ok false,
           { ctx with router_params := params, router := some router })) := by
  constructor
  · intro svc s ctx h
    unfold ProxyService.request_filter
    simp [h]
  · intro svc s ctx params router h
    unfold ProxyService.request_filter
    simp [h]

/-- Witness for C5: `svcX` 404s the unmatched request with the fresh
context unchanged, and stores rule and parameters for the matched
one. -/
theorem request_filter_spec_w :
    ProxyService.request_filter svcX sessMiss ctxFresh =
      (Except.error (PgError.explain (ErrorType.HTTPStatus 404) "Not Found"),
       ctxFresh) ∧
    ProxyService.request_filter svcX sessHit ctxFresh =
      (Except.ok false,
       { ctxFresh with router_params := [("id", "1")],
                        router := some routerTwo }) :=
  ⟨request_filter_spec.1 svcX sessMiss ctxFresh rfl,
   request_filter_spec.2 svcX sessHit ctxFresh [("id", "1")] routerTwo rfl⟩

/-- An outbound header carrying the client's host. -/
def reqX : RequestHeader := { host := "example.com" }

/-- C6: the code, not the spec — invoking `upstream_peer` or
`upstream_request_filter` on a context with no matched rule hits
`ctx.router.as_ref().unwrap()` and panics; no `RoutingUnavailable`
error is ever constructed, contradicting the spec's requirement of a
defensive error instead of a crash. -/
theorem upstream_hooks_panic_on_unmatched :
    upstream_peer ctxFresh sessHit = Outcome.panicked ∧
    (upstream_request_filter ctxFresh reqX).1 = Outcome.panicked :=
  ⟨rfl, rfl⟩

/-- One hook invocation preserves `created_at`, and moves `tries` by
0, or by exactly 1 when the hook is a connect-failure (the only hook
whose body writes the counter). -/
theorem applyHook_step (h : HookCall) (ctx : ProxyContext) :
    (applyHook h ctx).created_at = ctx.created_at ∧
    ((applyHook h ctx).tries = ctx.tries ∨
      ((applyHook h ctx).tries = ctx.tries + 1 ∧
        ∃ clk e, h = HookCall.connectFail clk e)) := by
  cases h with
  | filter svc s =>
    exact ⟨(request_filter_preserves svc s ctx).2,
      Or.inl (request_filter_preserves svc s ctx).1⟩
  | connectFail clk e =>
    simp only [applyHook]
    rcases fail_to_connect_cases clk ctx e with hc | hc <;> rw [hc]
    · exact ⟨rfl, Or.inl rfl⟩
    · exact ⟨rfl, Or.inr ⟨rfl, clk, e, rfl⟩⟩
  | peerSelect s => exact ⟨rfl, Or.inl rfl⟩
  | outboundRewrite r => exact ⟨rfl, Or.inl rfl⟩

/-- Along any sequence of hook invocations, `created_at` is constant
and `tries` never decreases. -/
theorem runHooks_created_at_tries (hs : List HookCall) :
    ∀ ctx : ProxyContext,
      (runHooks hs ctx).created_at = ctx.created_at ∧
      ctx.tries ≤ (runHooks hs ctx).tries := by
  induction hs with
  | nil => exact fun ctx => ⟨rfl, Nat.le_refl _⟩
  | cons h t ih =>
    intro ctx
    have hstep := applyHook_step h ctx
    have ht := ih (applyHook h ctx)
    have hrun : runHooks (h :: t) ctx = runHooks t (applyHook h ctx) := rfl
    rw [hrun]
    refine ⟨by rw [ht.1, hstep.1], ?_⟩
    have hmono : ctx.tries ≤ (applyHook h ctx).tries := by
      rcases hstep.2 with h1 | ⟨h1, _⟩ <;> omega
    exact le_trans hmono ht.2

/-- C7: `new_ctx` produces a context with `created_at` equal to the
current wall-clock `u64` milliseconds, attempt counter 0, no matched
rule and empty parameters; each single hook invocation preserves
`created_at` and changes `tries` only by +1 and only when it is the
connect-failure hook; hence over any sequence of hook invocations
`created_at` stays fixed and `tries` grows monotonically. -/
theorem ctx_invariants :
    (∀ (svc : ProxyService) (clk : Clock),
        (ProxyService.new_ctx svc clk).created_at = nowMillisU64 clk ∧
        (ProxyService.new_ctx svc clk).tries = 0 ∧
        (ProxyService.new_ctx svc clk).router = none ∧
        (ProxyService.new_ctx svc clk).router_params = []) ∧
    (∀ (h : HookCall) (ctx : ProxyContext),
        (applyHook h ctx).created_at = ctx.created_at ∧
        ((applyHook h ctx).tries = ctx.tries ∨
          ((applyHook h ctx).tries = ctx.tries + 1 ∧
            ∃ clk e, h = HookCall.connectFail clk e))) ∧
    (∀ (hs : List HookCall) (ctx : ProxyContext),
        (runHooks hs ctx).created_at = ctx.created_at ∧
        ctx.tries ≤ (runHooks hs ctx).tries) :=
  ⟨fun _svc _clk => ⟨rfl, rfl, rfl, rfl⟩,
   applyHook_step,
   fun hs ctx => runHooks_created_at_tries hs ctx⟩

/-- A balancer permitting 1 retry within a 1 s time budget. -/
def lbWrap : LoadBalancer :=
  { retries := some 1, retry_timeout := some 1, hostRewrite := fun r => r }

/-- A rule over `lbWrap`. -/
def routerWrap : ProxyRouter :=
  { lb := lbWrap,
    selectPeer := fun _ => Except.ok { address := "10.0.0.5:80" } }

/-- A context over `routerWrap` stamped with the maximal `u64`
millisecond timestamp. -/
def ctxWrap : ProxyContext :=
  { router := some routerWrap, router_params := [], tries := 0,
    created_at := U64 - 1 }

/-- A clock reading 0 ms after the epoch. -/
def clkZero : Clock := { beforeEpoch := false, millis := 0 }

/-- C10 counterexample: a call where the clock reads earlier than
`created_at` on which the retry is nevertheless GRANTED.  With
`created_at = 2^64 - 1` and the clock at 0, the wrapped elapsed value
is 1, which does not exceed the 1000 ms budget, so the error is
marked retryable and the counter moves to 1 — refuting "for every
call where the current clock reading is less than created_at … the
budget is deemed exceeded, and the retry is denied". -/
theorem fail_to_connect_clock_backwards_cex :
    nowMillisU64 clkZero < ctxWrap.created_at ∧
    (fail_to_connect clkZero ctxWrap e0).1.retry = true ∧
    (fail_to_connect clkZero ctxWrap e0).2.tries = 1 :=
  ⟨by decide, rfl, rfl⟩

/-- A context over `routerTimed` created at epoch millisecond 5000. -/
def ctxBack : ProxyContext :=
  { router := some routerTimed, router_params := [], tries := 0,
    created_at := 5000 }

/-- A clock reading 1000 ms: 4000 ms before `ctxBack.created_at`. -/
def clkBack : Clock := { beforeEpoch := false, millis := 1000 }

/-- C10 (amended): the elapsed time is the wrapping `u64` difference
of the `u64`-truncated millisecond clock and `created_at`, and `now()`
yields 0 whenever the system clock reads before the Unix epoch; and
for every call with a configured retry policy and time budget where
the clock reads less than `created_at` and the backward drift
`created_at - now` is smaller than `2^64` minus the budget in
milliseconds (as is every drift the program's own timestamps can
produce), the wrapped elapsed value exceeds the budget, so the check
fails closed and the retry is denied. -/
theorem fail_to_connect_clock_backwards :
    (∀ c : Clock, c.beforeEpoch = true → nowMillis c = 0) ∧
    (∀ (clk : Clock) (ctx : ProxyContext) (e : PgError)
        (router : ProxyRouter) (retries timeout : Nat),
        ctx.router = some router →
        router.lb.get_retries = some retries →
        ¬(retries = 0 ∨ retries ≤ ctx.tries) →
        router.lb.get_retry_timeout = some timeout →
        ctx.created_at < U64 →
        nowMillisU64 clk < ctx.created_at →
        ctx.created_at - nowMillisU64 clk < U64 - (timeout * 1000) % U64 →
        fail_to_connect clk ctx e = (e, ctx)) := by
  constructor
  · intro c hc
    unfold nowMillis
    simp [hc]
  · intro clk ctx e router retries timeout hr hn h1 ht hca hlt hdrift
    have hU : (0 : Nat) < U64 := by decide
    have hA : nowMillisU64 clk < U64 := Nat.mod_lt _ hU
    have hm : (timeout * 1000) % U64 < U64 := Nat.mod_lt _ hU
    have helapsed : u64Sub (nowMillisU64 clk) ctx.created_at >
        (timeout * 1000) % U64 := by
      unfold u64Sub
      rw [Nat.mod_eq_of_lt hA, Nat.mod_eq_of_lt hca]
      have hred : (nowMillisU64 clk + U64 - ctx.created_at) % U64 =
          nowMillisU64 clk + U64 - ctx.created_at :=
        Nat.mod_eq_of_lt (by omega)
      rw [hred]
      omega
    have h2 : timeBudgetExceeded clk ctx router = true := by
      unfold timeBudgetExceeded
      simp [ht, helapsed]
    unfold fail_to_connect
    simp [hr, hn, h1, h2]

/-- Witness for the amended C10: a pre-epoch clock reads 0, and a
clock 4000 ms behind a context created at millisecond 5000, against a
5 s budget with all retries unspent, still yields "do not retry". -/
theorem fail_to_connect_clock_backwards_w :
    nowMillis { beforeEpoch := true, millis := 777 } = 0 ∧
    fail_to_connect clkBack ctxBack e0 = (e0, ctxBack) :=
  ⟨fail_to_connect_clock_backwards.1 { beforeEpoch := true, millis := 777 }
     rfl,
   fail_to_connect_clock_backwards.2 clkBack ctxBack e0 routerTimed 3 5
     rfl rfl (by decide) rfl (by decide) (by decide) (by decide)⟩
